import Mathlib

/-!
Verification model of the vfkit machine driver
(`pkg/drivers/vfkit/vfkit.go`).

The driver coordinates two external child processes (the vfkit hypervisor
and an optional vmnet network helper) through pid files, a unix-socket
HTTP control channel, a DHCP-lease IP lookup, and a tar-formatted
bootstrap disk image.  External effects (pid-file reads, process
liveness checks, the control-channel transport, the DHCP lookup, the
firewall unblock action, the file system) are modelled as explicit
oracle fields of a world record; the driver functions below are direct
translations of the Go control flow over that world.
-/

set_option autoImplicit false

namespace Vfkit

/-- Machine states from `libmachine/state` used by this driver. -/
inductive MachineState
  | Running
  | Stopped
  | Error
  deriving DecidableEq, Repr

/-- Go `error` values distinguished by the driver: `os.ErrNotExist`
(matched with `errors.Is`), `os.ErrProcessDone` (matched with `==`),
and any other error carrying a message string. -/
inductive GoError
  | notExist
  | processDone
  | other (msg : String)
  deriving DecidableEq, Repr

/-- The `Error()` message of a modelled Go error. -/
def GoError.message : GoError → String
  | GoError.notExist => "file does not exist"
  | GoError.processDone => "os: process already finished"
  | GoError.other msg => msg

/-- Whether `errors.Is(err, os.ErrNotExist)` holds for the modelled error. -/
def GoError.isNotExist : GoError → Bool
  | GoError.notExist => true
  | _ => false

/-- `errors.Wrap(err, msg)` / `fmt.Errorf` style wrapping: the wrapped
message is `msg ++ ": " ++ cause`. -/
def wrapErr (msg : String) (e : GoError) : GoError :=
  GoError.other (msg ++ ": " ++ e.message)

/-- `charsLeading needle hay` is true when `needle` occurs at the start of `hay`. -/
def charsLeading : List Char → List Char → Bool
  | [], _ => true
  | _ :: _, [] => false
  | a :: as, b :: bs => a == b && charsLeading as bs

/-- `charsHas hay needle` is true when `needle` occurs contiguously in `hay`. -/
def charsHas : List Char → List Char → Bool
  | [], needle => needle.isEmpty
  | c :: rest, needle => charsLeading needle (c :: rest) || charsHas rest needle

/-- `strings.Contains hay needle`. -/
def strHas (hay needle : String) : Bool :=
  charsHas hay.toList needle.toList

/-- `isBootpdError` from the source: the error message contains the
bootpd signature substring. -/
def isBootpdError (e : GoError) : Bool :=
  strHas e.message "could not find an IP address"

/-! ## The vmnet helper (abstract collaborator)

Modelled from the spec: the `vmnet.Helper` type lives in
`pkg/drivers/vmnet`, which is not part of the given source; per the spec
it is consumed only through an abstract start/stop/state contract where
a state query reports the helper's own state (absence of its pid file
is Stopped, a query can also fail), and Stop/Kill on an already-stopped
helper are idempotent no-op successes. -/

/-- Modelled from the spec: observable state of the optional vmnet
helper process, with oracle fields for query/stop/kill failures. -/
structure HelperWorld where
  hstate : MachineState
  queryErr : Option GoError
  stopErr : Option GoError
  killErr : Option GoError
  deriving DecidableEq, Repr

/-- Modelled from the spec: `Helper.GetState` reports the helper's own
state, or fails with the oracle error. -/
def HelperWorld.getState (h : HelperWorld) : Except GoError MachineState :=
  match h.queryErr with
  | some e => Except.error e
  | none => Except.ok h.hstate

/-- Modelled from the spec: `Helper.Stop` is an idempotent no-op success
when the helper is already stopped; otherwise it stops the helper
(or fails with the oracle error, leaving it unchanged). -/
def HelperWorld.stop (h : HelperWorld) : Except GoError Unit × HelperWorld :=
  if h.hstate = MachineState.Stopped then (Except.ok (), h)
  else
    match h.stopErr with
    | some e => (Except.error e, h)
    | none => (Except.ok (), { h with hstate := MachineState.Stopped })

/-- Modelled from the spec: `Helper.Kill`, same contract as `stop` with
a forceful signal. -/
def HelperWorld.kill (h : HelperWorld) : Except GoError Unit × HelperWorld :=
  if h.hstate = MachineState.Stopped then (Except.ok (), h)
  else
    match h.killErr with
    | some e => (Except.error e, h)
    | none => (Except.ok (), { h with hstate := MachineState.Stopped })

/-! ## Driver world -/

/-- The driver's observable environment: the result of reading the vfkit
pid file, oracles for `process.Exists`/`process.Terminate`/`process.Kill`
on a given pid with role "vfkit", the outcome of `SetVFKitState` on the
control channel for a given target state string, and the optional vmnet
helper. -/
structure VfkitWorld where
  readPidfile : Except GoError Nat
  procExists : Nat → Except GoError Bool
  setState : String → Except GoError Unit
  terminate : Nat → Except GoError Unit
  killSignal : Nat → Except GoError Unit
  helper : Option HelperWorld

/-- `os.Remove(pidfile)`: afterwards reading the pid file reports
`os.ErrNotExist`.  (In the source a removal failure is only logged at
debug level and does not change the control flow.) -/
def removePidfile (w : VfkitWorld) : VfkitWorld :=
  { w with readPidfile := Except.error GoError.notExist }

/-- `getVfkitState`: reads the pid file (absence is Stopped, other read
errors are Error), checks liveness-plus-name of the recorded pid, and
removes a stale pid file before returning Stopped. -/
def getVfkitState (w : VfkitWorld) : Except GoError MachineState × VfkitWorld :=
  match w.readPidfile with
  | Except.error e =>
    if e.isNotExist then (Except.ok MachineState.Stopped, w)
    else (Except.error e, w)
  | Except.ok pid =>
    match w.procExists pid with
    | Except.error e => (Except.error e, w)
    | Except.ok true => (Except.ok MachineState.Running, w)
    | Except.ok false => (Except.ok MachineState.Stopped, removePidfile w)

/-- `getVmnetHelperState`: Stopped when no helper is configured,
otherwise the helper's own reported state. -/
def getVmnetHelperState (w : VfkitWorld) : Except GoError MachineState :=
  match w.helper with
  | none => Except.ok MachineState.Stopped
  | some h => h.getState

/-- `GetState`: combined state of the vfkit process and the vmnet
helper.  An error from the vfkit query is returned as Error; Running
vfkit dominates; otherwise the helper's state is returned. -/
def GetState (w : VfkitWorld) : Except GoError MachineState × VfkitWorld :=
  match getVfkitState w with
  | (Except.error e, w2) => (Except.error e, w2)
  | (Except.ok MachineState.Running, w2) => (Except.ok MachineState.Running, w2)
  | (Except.ok _, w2) => (getVmnetHelperState w2, w2)

/-! ## Stop and Kill with event traces -/

/-- Observable actions performed by Stop/Kill, in order. -/
inductive Event
  | setVFKitState (s : String)
  | readPid
  | terminate (pid : Nat)
  | killSig (pid : Nat)
  | removePid
  | helperStop
  | helperKill
  deriving DecidableEq, Repr

/-- Whether an event belongs to the vmnet helper (as opposed to the
vfkit hypervisor). -/
def Event.isHelper : Event → Bool
  | Event.helperStop => true
  | Event.helperKill => true
  | _ => false

/-- `stopVfkit`: try `SetVFKitState("Stop")` on the control channel; on
failure fall back to reading the pid file (absence is success) and
`process.Terminate`; `os.ErrProcessDone` means a stale pid file, which
is removed, and success. -/
def stopVfkit (w : VfkitWorld) : Except GoError Unit × VfkitWorld × List Event :=
  match w.setState "Stop" with
  | Except.ok _ => (Except.ok (), w, [Event.setVFKitState "Stop"])
  | Except.error _ =>
    match w.readPidfile with
    | Except.error e =>
      if e.isNotExist then
        (Except.ok (), w, [Event.setVFKitState "Stop", Event.readPid])
      else
        (Except.error e, w, [Event.setVFKitState "Stop", Event.readPid])
    | Except.ok pid =>
      match w.terminate pid with
      | Except.ok _ =>
        (Except.ok (), w, [Event.setVFKitState "Stop", Event.readPid, Event.terminate pid])
      | Except.error e =>
        if e = GoError.processDone then
          (Except.ok (), removePidfile w,
            [Event.setVFKitState "Stop", Event.readPid, Event.terminate pid, Event.removePid])
        else
          (Except.error e, w,
            [Event.setVFKitState "Stop", Event.readPid, Event.terminate pid])

/-- `stopVmnetHelper`: no-op success when no helper is configured,
otherwise the helper's Stop. -/
def stopVmnetHelper (w : VfkitWorld) : Except GoError Unit × VfkitWorld × List Event :=
  match w.helper with
  | none => (Except.ok (), w, [])
  | some h =>
    let r := h.stop
    (r.1, { w with helper := some r.2 }, [Event.helperStop])

/-- `Stop`: stop the vfkit process first; only if that succeeds, stop
the vmnet helper. -/
def Stop (w : VfkitWorld) : Except GoError Unit × VfkitWorld × List Event :=
  match stopVfkit w with
  | (Except.error e, w2, tr) => (Except.error e, w2, tr)
  | (Except.ok _, w2, tr) =>
    let r := stopVmnetHelper w2
    (r.1, r.2.1, tr ++ r.2.2)

/-- `killVfkit`: try `SetVFKitState("HardStop")`; on failure fall back
to the pid file and `process.Kill`, with the same stale-pid-file
handling as `stopVfkit`. -/
def killVfkit (w : VfkitWorld) : Except GoError Unit × VfkitWorld × List Event :=
  match w.setState "HardStop" with
  | Except.ok _ => (Except.ok (), w, [Event.setVFKitState "HardStop"])
  | Except.error _ =>
    match w.readPidfile with
    | Except.error e =>
      if e.isNotExist then
        (Except.ok (), w, [Event.setVFKitState "HardStop", Event.readPid])
      else
        (Except.error e, w, [Event.setVFKitState "HardStop", Event.readPid])
    | Except.ok pid =>
      match w.killSignal pid with
      | Except.ok _ =>
        (Except.ok (), w, [Event.setVFKitState "HardStop", Event.readPid, Event.killSig pid])
      | Except.error e =>
        if e = GoError.processDone then
          (Except.ok (), removePidfile w,
            [Event.setVFKitState "HardStop", Event.readPid, Event.killSig pid, Event.removePid])
        else
          (Except.error e, w,
            [Event.setVFKitState "HardStop", Event.readPid, Event.killSig pid])

/-- `killVmnetHelper`: no-op success when no helper is configured,
otherwise the helper's Kill. -/
def killVmnetHelper (w : VfkitWorld) : Except GoError Unit × VfkitWorld × List Event :=
  match w.helper with
  | none => (Except.ok (), w, [])
  | some h =>
    let r := h.kill
    (r.1, { w with helper := some r.2 }, [Event.helperKill])

/-- `Kill`: kill the vfkit process first; only if that succeeds, kill
the vmnet helper. -/
def Kill (w : VfkitWorld) : Except GoError Unit × VfkitWorld × List Event :=
  match killVfkit w with
  | (Except.error e, w2, tr) => (Except.error e, w2, tr)
  | (Except.ok _, w2, tr) =>
    let r := killVmnetHelper w2
    (r.1, r.2.1, tr ++ r.2.2)

/-- World after `n` repeated calls of `Stop`. -/
def iterStop : Nat → VfkitWorld → VfkitWorld
  | 0, w => w
  | n + 1, w => iterStop n (Stop w).2.1

/-- World after `n` repeated calls of `Kill`. -/
def iterKill : Nat → VfkitWorld → VfkitWorld
  | 0, w => w
  | n + 1, w => iterKill n (Kill w).2.1

/-! ## setupIP (IP resolution retry loop) -/

/-- The retry multiplier: 3 when `detect.NestedVM()` is true and 1
otherwise; the loop runs `60 * multiplier` iterations. -/
def ipBudget (nested : Bool) : Nat :=
  60 * (if nested then 3 else 1)

/-- Every failed lookup is wrapped as in `getIP` in the source. -/
def gipWrap (e : GoError) : GoError :=
  wrapErr "failed to get IP address" e

/-- The retry loop of `setupIP`: `lookup i` is the result of
`GetIPAddressByMACAddress` on the i-th attempt (0-based); the second
argument is the current attempt index and the third the remaining
iteration count.  Returns the final result together with the number of
attempts actually made and the total seconds slept (the source sleeps
2 seconds after every failed attempt, including the last one). -/
def runAttempts (lookup : Nat → Except GoError String) :
    Nat → Nat → Except GoError String × Nat × Nat
  | _, 0 => (Except.error (GoError.other "no attempts made"), 0, 0)
  | i, n + 1 =>
    match lookup i with
    | Except.ok ip => (Except.ok ip, 1, 0)
    | Except.error e =>
      match n with
      | 0 => (Except.error (gipWrap e), 1, 2)
      | m + 1 =>
        let r := runAttempts lookup (i + 1) (m + 1)
        (r.1, r.2.1 + 1, r.2.2 + 2)

/-- Outcome of `setupIP`: success stores the IP address in the driver;
`retryable` is the `fmt.Errorf("ip not found: %v", err)` return after a
successful firewall unblock; `hardErr` is the wrapped non-bootpd
failure; `exitFatal` is the `exit.Error` path taken when the firewall
unblock itself fails (the process terminates instead of returning). -/
inductive IPOutcome
  | ok (ip : String)
  | retryable (msg : String)
  | hardErr (e : GoError)
  | exitFatal
  deriving DecidableEq, Repr

/-- `setupIP`: run the bounded retry loop; on success store the IP; on
exhaustion classify the final error with `isBootpdError` and either run
the firewall unblock once (returning a retryable error, or exiting
fatally when the unblock fails) or return the wrapped error.  The
result also carries the number of lookup attempts, total sleep seconds,
and the number of firewall-unblock invocations. -/
def setupIP (nested : Bool) (lookup : Nat → Except GoError String)
    (unblock : Except GoError Unit) : IPOutcome × Nat × Nat × Nat :=
  let r := runAttempts lookup 0 (ipBudget nested)
  match r.1 with
  | Except.ok ip => (IPOutcome.ok ip, r.2.1, r.2.2, 0)
  | Except.error e =>
    if isBootpdError e then
      match unblock with
      | Except.ok _ =>
        (IPOutcome.retryable ("ip not found: " ++ e.message), r.2.1, r.2.2, 1)
      | Except.error _ => (IPOutcome.exitFatal, r.2.1, r.2.2, 1)
    else
      (IPOutcome.hardErr (wrapErr "IP address never found in dhcp leases file" e),
        r.2.1, r.2.2, 0)

/-! ## generateDiskImage (disk bootstrap builder) -/

/-- The sentinel string written first into the bootstrap archive. -/
def magicString : String := "boot2docker, please format-me"

/-- Byte content of an ASCII string. -/
def strBytes (s : String) : List Nat :=
  s.toList.map Char.toNat

/-- Tar entry types used by the source (`tar.TypeDir` for `.ssh`,
regular files otherwise). -/
inductive TarType
  | reg
  | dir
  deriving DecidableEq, Repr

/-- The `tar.Header` fields the source sets: name, size, type flag and
mode. -/
structure TarHeader where
  name : String
  size : Nat
  typeflag : TarType
  mode : Nat
  deriving DecidableEq, Repr

/-- The archive entries written by `generateDiskImage`, in order: the
magic sentinel entry (whose content is the sentinel string itself), the
`.ssh` directory with mode 0700, and the two authorized-keys files with
mode 0644 containing the public key bytes. -/
def diskEntries (pubKey : List Nat) : List (TarHeader × List Nat) :=
  [ ({ name := magicString, size := (strBytes magicString).length,
       typeflag := TarType.reg, mode := 0 }, strBytes magicString),
    ({ name := ".ssh", size := 0, typeflag := TarType.dir, mode := 0o700 }, []),
    ({ name := ".ssh/authorized_keys", size := pubKey.length,
       typeflag := TarType.reg, mode := 0o644 }, pubKey),
    ({ name := ".ssh/authorized_keys2", size := pubKey.length,
       typeflag := TarType.reg, mode := 0o644 }, pubKey) ]

/-- Round up to a multiple of the 512-byte tar block size. -/
def pad512 (n : Nat) : Nat :=
  ((n + 511) / 512) * 512

/-- Encoded byte length of the tar stream: one 512-byte header plus the
content padded to 512 bytes per entry, plus the two zero blocks written
by `tw.Close()`. -/
def tarByteLen (entries : List (TarHeader × List Nat)) : Nat :=
  entries.foldr (fun e acc => 512 + pad512 e.2.length + acc) 1024

/-- The on-disk `disk.img` file: its tar entries, its current byte
length, and whether the encoded archive still fits inside that length
(a truncation below the archive length discards the tail and destroys
the archive). -/
structure DiskFile where
  entries : List (TarHeader × List Nat)
  byteLen : Nat
  intact : Bool
  deriving DecidableEq, Repr

/-- `os.Truncate` to `n` bytes: sets the file length exactly; the
archive survives only if its encoded length still fits. -/
def truncateFile (f : DiskFile) (n : Nat) : DiskFile :=
  { entries := f.entries, byteLen := n,
    intact := f.intact && decide (tarByteLen f.entries ≤ n) }

/-- File-system environment of `generateDiskImage`: the result of
reading the public key file, and whether `os.WriteFile` and
`os.Truncate` succeed. -/
structure DiskFS where
  readPubKey : Except GoError (List Nat)
  writeOk : Bool
  truncateOk : Bool
  disk : Option DiskFile

/-- `generateDiskImage size`: build the in-memory tar archive (writes to
the in-memory buffer cannot fail), reading the public key file (a read
failure aborts with that error); then `os.WriteFile` the buffer to
`disk.img` and `os.Truncate` it to `size` MB.  NOTE (faithful to the
source): a failure of `os.WriteFile` or `os.Truncate` is swallowed with
`return nil`, so both failure branches report success. -/
def generateDiskImage (fs : DiskFS) (size : Nat) : Except GoError Unit × DiskFS :=
  match fs.readPubKey with
  | Except.error e => (Except.error e, fs)
  | Except.ok pubKey =>
    let entries := diskEntries pubKey
    if fs.writeOk then
      let written : DiskFile :=
        { entries := entries, byteLen := tarByteLen entries, intact := true }
      if fs.truncateOk then
        (Except.ok (), { fs with disk := some (truncateFile written (size * 1048576)) })
      else
        (Except.ok (), { fs with disk := some written })
    else
      (Except.ok (), fs)

/-! ## SetVFKitState (control channel) -/

/-- The HTTP response to the POST; the source never inspects it. -/
structure HttpResponse where
  statusCode : Nat
  deriving DecidableEq, Repr

/-- The JSON body `json.Marshal(&VMState{State: s})` produces. -/
def vmStateBody (s : String) : String :=
  "\x7b\"state\":\"" ++ s ++ "\"\x7d"

/-- `SetVFKitState`: marshal the state into a JSON body (marshalling a
one-string-field struct cannot fail), POST it over the unix socket, and
return the transport error if the POST fails; the HTTP response,
including its status code, is ignored. -/
def SetVFKitState (post : String → Except GoError HttpResponse) (s : String) :
    Except GoError Unit :=
  match post (vmStateBody s) with
  | Except.error e => Except.error e
  | Except.ok _ => Except.ok ()

/-! ## WaitForTCPWithDelay (SSH readiness wait) -/

/-- Outcome of one probe iteration of `WaitForTCPWithDelay`: the dial
fails (the source retries immediately), the one-byte read fails with a
non-EOF error (the source sleeps the fixed delay then retries), or the
probe succeeds (read succeeds or returns EOF) and the loop breaks. -/
inductive ProbeResult
  | dialErr
  | readErr
  | success
  deriving DecidableEq, Repr

/-- `WaitForTCPWithDelay` as a fuel-indexed loop: `probe i` is the
outcome of the i-th iteration; the fuel argument only bounds how far we
unroll the (unbounded) source loop.  `some k` means the loop terminated
after exactly `k` probe attempts within the given fuel; `none` means it
had not terminated after `fuel` attempts. -/
def waitForTCP (probe : Nat → ProbeResult) : Nat → Nat → Option Nat
  | 0, _ => none
  | fuel + 1, i =>
    match probe i with
    | ProbeResult.success => some (i + 1)
    | _ => waitForTCP probe fuel (i + 1)

/-! ## Helper lemmas -/

lemma getVfkitState_helper (w : VfkitWorld) :
    ((getVfkitState w).2).helper = w.helper := by
  unfold getVfkitState
  cases hr : w.readPidfile with
  | error e => cases hne : e.isNotExist <;> simp [hne, removePidfile]
  | ok pid =>
    cases hx : w.procExists pid with
    | error e => simp [hx]
    | ok b => cases b <;> simp [hx, removePidfile]

lemma getVmnetHelperState_eq (w w2 : VfkitWorld) (h : w.helper = w2.helper) :
    getVmnetHelperState w = getVmnetHelperState w2 := by
  unfold getVmnetHelperState
  rw [h]

/-! ## C1 -/

/-- Concrete driver state for C1: the pid file records pid 1234, no
live vfkit process matches it, and the vmnet helper is still running. -/
def w1cex : VfkitWorld :=
  { readPidfile := Except.ok 1234,
    procExists := fun _ => Except.ok false,
    setState := fun _ => Except.ok (),
    terminate := fun _ => Except.ok (),
    killSignal := fun _ => Except.ok (),
    helper := some { hstate := MachineState.Running, queryErr := none,
                     stopErr := none, killErr := none } }

/-- Claim C1, counterexample: with a stale vfkit pid file but a running
vmnet helper, `GetState` does remove the stale pid file, but it returns
Running (the helper's state), not Stopped as the claim states. -/
theorem c1_counterexample :
    (GetState w1cex).1 = Except.ok MachineState.Running ∧
    (GetState w1cex).1 ≠ Except.ok MachineState.Stopped ∧
    (GetState w1cex).2.readPidfile = Except.error GoError.notExist := by
  refine ⟨rfl, ?_, rfl⟩
  intro h
  rw [show (GetState w1cex).1 = Except.ok MachineState.Running from rfl] at h
  exact MachineState.noConfusion (Except.ok.inj h)

/-- Claim C1 (amended): whenever the hypervisor pid file exists but the
recorded pid has no live matching "vfkit" process, `GetState` removes
the stale pid file and returns the vmnet helper's state — in
particular Stopped, without error, when no helper is configured. -/
theorem c1_stale_pidfile_cleanup (w : VfkitWorld) (pid : Nat)
    (hpid : w.readPidfile = Except.ok pid)
    (hstale : w.procExists pid = Except.ok false) :
    (GetState w).2.readPidfile = Except.error GoError.notExist ∧
    (GetState w).1 = getVmnetHelperState w ∧
    (w.helper = none → (GetState w).1 = Except.ok MachineState.Stopped) := by
  have h1 : getVfkitState w = (Except.ok MachineState.Stopped, removePidfile w) := by
    simp [getVfkitState, hpid, hstale]
  have h2 : GetState w = (getVmnetHelperState (removePidfile w), removePidfile w) := by
    unfold GetState
    rw [h1]
  have h3 : getVmnetHelperState (removePidfile w) = getVmnetHelperState w :=
    getVmnetHelperState_eq _ _ rfl
  refine ⟨?_, ?_, ?_⟩
  · rw [h2]
    rfl
  · rw [h2]
    exact h3
  · intro hnone
    rw [h2]
    refine h3.trans ?_
    unfold getVmnetHelperState
    rw [hnone]

/-- Concrete helper-free driver state for the C1 witness. -/
def w1wit : VfkitWorld :=
  { readPidfile := Except.ok 42,
    procExists := fun _ => Except.ok false,
    setState := fun _ => Except.ok (),
    terminate := fun _ => Except.ok (),
    killSignal := fun _ => Except.ok (),
    helper := none }

/-- Witness for C1 (amended) at a concrete stale-pid-file state without
a helper: the pid file is removed and Stopped is returned. -/
theorem c1_stale_pidfile_cleanup_w :
    (GetState w1wit).2.readPidfile = Except.error GoError.notExist ∧
    (GetState w1wit).1 = Except.ok MachineState.Stopped :=
  ⟨(c1_stale_pidfile_cleanup w1wit 42 rfl rfl).1,
   (c1_stale_pidfile_cleanup w1wit 42 rfl rfl).2.2 rfl⟩

/-! ## C9 -/

/-- Concrete driver state for C9: reading the vfkit pid file fails with
a non-ENOENT error while the vmnet helper reports Running. -/
def w9cex : VfkitWorld :=
  { readPidfile := Except.error (GoError.other "permission denied"),
    procExists := fun _ => Except.ok false,
    setState := fun _ => Except.ok (),
    terminate := fun _ => Except.ok (),
    killSignal := fun _ => Except.ok (),
    helper := some { hstate := MachineState.Running, queryErr := none,
                     stopErr := none, killErr := none } }

/-- Claim C9, counterexample: the vfkit state query fails (reporting
state Error, which is "other than Running") while the helper query
reports Running, yet `GetState` returns the error, not Running — so
Running does not dominate when the hypervisor query errors. -/
theorem c9_counterexample :
    getVmnetHelperState w9cex = Except.ok MachineState.Running ∧
    (GetState w9cex).1 = Except.error (GoError.other "permission denied") ∧
    (GetState w9cex).1 ≠ Except.ok MachineState.Running := by
  refine ⟨rfl, rfl, ?_⟩
  intro h
  rw [show (GetState w9cex).1 = Except.error (GoError.other "permission denied") from rfl] at h
  exact Except.noConfusion h

/-- Claim C9 (amended): `GetState` returns Running whenever the vfkit
query succeeds reporting Running, and also whenever the vfkit query
succeeds (with any state) while the helper reports Running; but when
the vfkit query fails, `GetState` returns that error without consulting
the helper. -/
theorem c9_running_dominates (w : VfkitWorld) :
    ((getVfkitState w).1 = Except.ok MachineState.Running →
      (GetState w).1 = Except.ok MachineState.Running) ∧
    (∀ s, (getVfkitState w).1 = Except.ok s →
      getVmnetHelperState w = Except.ok MachineState.Running →
      (GetState w).1 = Except.ok MachineState.Running) ∧
    (∀ e, (getVfkitState w).1 = Except.error e →
      (GetState w).1 = Except.error e) := by
  have hh : ((getVfkitState w).2).helper = w.helper := getVfkitState_helper w
  refine ⟨?_, ?_, ?_⟩
  · intro h
    unfold GetState
    rcases hg : getVfkitState w with ⟨res, w2⟩
    rw [hg] at h
    simp only at h
    rw [h]
  · intro s hs hhelper
    have hsame : getVmnetHelperState (getVfkitState w).2 = getVmnetHelperState w :=
      getVmnetHelperState_eq _ _ hh
    unfold GetState
    rcases hg : getVfkitState w with ⟨res, w2⟩
    rw [hg] at hs hsame
    simp only at hs
    rw [hs]
    cases s with
    | Running => rfl
    | Stopped => simpa using hsame.trans hhelper
    | Error => simpa using hsame.trans hhelper
  · intro e he
    unfold GetState
    rcases hg : getVfkitState w with ⟨res, w2⟩
    rw [hg] at he
    simp only at he
    rw [he]

/-- Concrete driver state for the C9 witness: vfkit pid file absent,
helper running. -/
def w9wit : VfkitWorld :=
  { readPidfile := Except.error GoError.notExist,
    procExists := fun _ => Except.ok false,
    setState := fun _ => Except.ok (),
    terminate := fun _ => Except.ok (),
    killSignal := fun _ => Except.ok (),
    helper := some { hstate := MachineState.Running, queryErr := none,
                     stopErr := none, killErr := none } }

/-- Witness for C9 (amended): with vfkit stopped (no pid file) and the
helper reporting Running, `GetState` returns Running. -/
theorem c9_running_dominates_w :
    (GetState w9wit).1 = Except.ok MachineState.Running :=
  (c9_running_dominates w9wit).2.1 MachineState.Stopped rfl rfl

/-! ## C10 -/

/-- Claim C10: `SetVFKitState` returns success whenever the POST over
the unix socket completes at the transport level, whatever the HTTP
status code of the response. -/
theorem c10_ignores_status (post : String → Except GoError HttpResponse)
    (s : String) (r : HttpResponse)
    (h : post (vmStateBody s) = Except.ok r) :
    SetVFKitState post s = Except.ok () := by
  unfold SetVFKitState
  rw [h]

/-- A transport that always answers with HTTP status 500. -/
def post500 : String → Except GoError HttpResponse :=
  fun _ => Except.ok { statusCode := 500 }

/-- Witness for C10: even an HTTP 500 response is reported as success. -/
theorem c10_ignores_status_w : SetVFKitState post500 "Stop" = Except.ok () :=
  c10_ignores_status post500 "Stop" { statusCode := 500 } rfl

/-! ## C2 -/

/-- The vmnet helper is absent or already stopped. -/
def helperIdle (w : VfkitWorld) : Prop :=
  w.helper = none ∨ ∃ h, w.helper = some h ∧ h.hstate = MachineState.Stopped

lemma stopVfkit_no_pidfile (w : VfkitWorld)
    (hpid : w.readPidfile = Except.error GoError.notExist) :
    ∃ tr, stopVfkit w = (Except.ok (), w, tr) := by
  unfold stopVfkit
  cases hs : w.setState "Stop" with
  | ok u => exact ⟨_, rfl⟩
  | error e =>
    rw [hpid]
    exact ⟨_, rfl⟩

lemma killVfkit_no_pidfile (w : VfkitWorld)
    (hpid : w.readPidfile = Except.error GoError.notExist) :
    ∃ tr, killVfkit w = (Except.ok (), w, tr) := by
  unfold killVfkit
  cases hs : w.setState "HardStop" with
  | ok u => exact ⟨_, rfl⟩
  | error e =>
    rw [hpid]
    exact ⟨_, rfl⟩

lemma stopVmnetHelper_idle (w : VfkitWorld) (hh : helperIdle w) :
    (stopVmnetHelper w).1 = Except.ok () ∧ (stopVmnetHelper w).2.1 = w := by
  rcases hh with hnone | ⟨h, hsome, hstop⟩
  · unfold stopVmnetHelper
    rw [hnone]
    exact ⟨rfl, rfl⟩
  · unfold stopVmnetHelper
    rw [hsome]
    have hs : h.stop = (Except.ok (), h) := by
      unfold HelperWorld.stop
      rw [hstop]
      simp
    simp only [hs]
    refine ⟨trivial, ?_⟩
    show { w with helper := some h } = w
    rw [← hsome]

lemma killVmnetHelper_idle (w : VfkitWorld) (hh : helperIdle w) :
    (killVmnetHelper w).1 = Except.ok () ∧ (killVmnetHelper w).2.1 = w := by
  rcases hh with hnone | ⟨h, hsome, hstop⟩
  · unfold killVmnetHelper
    rw [hnone]
    exact ⟨rfl, rfl⟩
  · unfold killVmnetHelper
    rw [hsome]
    have hs : h.kill = (Except.ok (), h) := by
      unfold HelperWorld.kill
      rw [hstop]
      simp
    simp only [hs]
    refine ⟨trivial, ?_⟩
    show { w with helper := some h } = w
    rw [← hsome]

lemma Stop_idle (w : VfkitWorld)
    (hpid : w.readPidfile = Except.error GoError.notExist) (hh : helperIdle w) :
    (Stop w).1 = Except.ok () ∧ (Stop w).2.1 = w := by
  obtain ⟨tr, hsv⟩ := stopVfkit_no_pidfile w hpid
  have hhel := stopVmnetHelper_idle w hh
  unfold Stop
  rw [hsv]
  exact ⟨hhel.1, hhel.2⟩

lemma Kill_idle (w : VfkitWorld)
    (hpid : w.readPidfile = Except.error GoError.notExist) (hh : helperIdle w) :
    (Kill w).1 = Except.ok () ∧ (Kill w).2.1 = w := by
  obtain ⟨tr, hsv⟩ := killVfkit_no_pidfile w hpid
  have hhel := killVmnetHelper_idle w hh
  unfold Kill
  rw [hsv]
  exact ⟨hhel.1, hhel.2⟩

/-- Claim C2: when the vfkit pid file is absent and the vmnet helper is
absent or already stopped, both `Stop` and `Kill` return success and
leave the world unchanged, and repeating them any number of times keeps
the world unchanged. -/
theorem c2_stop_kill_idempotent (w : VfkitWorld)
    (hpid : w.readPidfile = Except.error GoError.notExist) (hh : helperIdle w) :
    (Stop w).1 = Except.ok () ∧ (Stop w).2.1 = w ∧
    (Kill w).1 = Except.ok () ∧ (Kill w).2.1 = w ∧
    (∀ n, iterStop n w = w) ∧ (∀ n, iterKill n w = w) := by
  have hst := Stop_idle w hpid hh
  have hkl := Kill_idle w hpid hh
  refine ⟨hst.1, hst.2, hkl.1, hkl.2, ?_, ?_⟩
  · intro n
    induction n with
    | zero => rfl
    | succ m ih =>
      show iterStop m (Stop w).2.1 = w
      rw [hst.2]
      exact ih
  · intro n
    induction n with
    | zero => rfl
    | succ m ih =>
      show iterKill m (Kill w).2.1 = w
      rw [hkl.2]
      exact ih

/-- Concrete driver state for the C2 witness: no vfkit pid file, control
channel refusing connections, helper present but stopped. -/
def w2wit : VfkitWorld :=
  { readPidfile := Except.error GoError.notExist,
    procExists := fun _ => Except.ok false,
    setState := fun _ => Except.error (GoError.other "connection refused"),
    terminate := fun _ => Except.ok (),
    killSignal := fun _ => Except.ok (),
    helper := some { hstate := MachineState.Stopped, queryErr := none,
                     stopErr := none, killErr := none } }

/-- Witness for C2 at a concrete already-stopped state: Stop and Kill
succeed and five repeated Stops leave the world unchanged. -/
theorem c2_stop_kill_idempotent_w :
    (Stop w2wit).1 = Except.ok () ∧ (Kill w2wit).1 = Except.ok () ∧
    iterStop 5 w2wit = w2wit :=
  ⟨(c2_stop_kill_idempotent w2wit rfl (Or.inr ⟨_, rfl, rfl⟩)).1,
   (c2_stop_kill_idempotent w2wit rfl (Or.inr ⟨_, rfl, rfl⟩)).2.2.1,
   (c2_stop_kill_idempotent w2wit rfl (Or.inr ⟨_, rfl, rfl⟩)).2.2.2.2.1 5⟩

/-! ## C5 -/

lemma stopVfkit_shape (w : VfkitWorld) :
    (w.setState "Stop" = Except.ok () ∧
      (stopVfkit w).2.2 = [Event.setVFKitState "Stop"]) ∨
    ((∃ e, w.setState "Stop" = Except.error e) ∧
      ((stopVfkit w).2.2 = [Event.setVFKitState "Stop", Event.readPid] ∨
       (∃ pid, (stopVfkit w).2.2 =
         [Event.setVFKitState "Stop", Event.readPid, Event.terminate pid]) ∨
       (∃ pid, (stopVfkit w).2.2 =
         [Event.setVFKitState "Stop", Event.readPid, Event.terminate pid,
          Event.removePid]))) := by
  cases hs : w.setState "Stop" with
  | ok u =>
    cases u
    exact Or.inl ⟨rfl, by simp [stopVfkit, hs]⟩
  | error e =>
    refine Or.inr ⟨⟨e, rfl⟩, ?_⟩
    cases hr : w.readPidfile with
    | error e2 =>
      refine Or.inl ?_
      cases hne : e2.isNotExist <;> simp [stopVfkit, hs, hr, hne]
    | ok pid =>
      cases ht : w.terminate pid with
      | ok u2 => exact Or.inr (Or.inl ⟨pid, by simp [stopVfkit, hs, hr, ht]⟩)
      | error e3 =>
        by_cases he : e3 = GoError.processDone
        · exact Or.inr (Or.inr ⟨pid, by simp [stopVfkit, hs, hr, ht, he]⟩)
        · exact Or.inr (Or.inl ⟨pid, by simp [stopVfkit, hs, hr, ht, he]⟩)

lemma killVfkit_shape (w : VfkitWorld) :
    (w.setState "HardStop" = Except.ok () ∧
      (killVfkit w).2.2 = [Event.setVFKitState "HardStop"]) ∨
    ((∃ e, w.setState "HardStop" = Except.error e) ∧
      ((killVfkit w).2.2 = [Event.setVFKitState "HardStop", Event.readPid] ∨
       (∃ pid, (killVfkit w).2.2 =
         [Event.setVFKitState "HardStop", Event.readPid, Event.killSig pid]) ∨
       (∃ pid, (killVfkit w).2.2 =
         [Event.setVFKitState "HardStop", Event.readPid, Event.killSig pid,
          Event.removePid]))) := by
  cases hs : w.setState "HardStop" with
  | ok u =>
    cases u
    exact Or.inl ⟨rfl, by simp [killVfkit, hs]⟩
  | error e =>
    refine Or.inr ⟨⟨e, rfl⟩, ?_⟩
    cases hr : w.readPidfile with
    | error e2 =>
      refine Or.inl ?_
      cases hne : e2.isNotExist <;> simp [killVfkit, hs, hr, hne]
    | ok pid =>
      cases ht : w.killSignal pid with
      | ok u2 => exact Or.inr (Or.inl ⟨pid, by simp [killVfkit, hs, hr, ht]⟩)
      | error e3 =>
        by_cases he : e3 = GoError.processDone
        · exact Or.inr (Or.inr ⟨pid, by simp [killVfkit, hs, hr, ht, he]⟩)
        · exact Or.inr (Or.inl ⟨pid, by simp [killVfkit, hs, hr, ht, he]⟩)

lemma Stop_split (w : VfkitWorld) :
    ∃ tail, (Stop w).2.2 = (stopVfkit w).2.2 ++ tail ∧
      (tail = [] ∨ tail = [Event.helperStop]) := by
  obtain ⟨p, hsv⟩ : ∃ p, stopVfkit w = p := ⟨_, rfl⟩
  obtain ⟨res, w2, tr⟩ := p
  unfold Stop
  rw [hsv]
  cases res with
  | error e => exact ⟨[], by simp, Or.inl rfl⟩
  | ok u =>
    unfold stopVmnetHelper
    cases hh : w2.helper with
    | none => exact ⟨[], by simp [hh], Or.inl rfl⟩
    | some h => exact ⟨[Event.helperStop], by simp [hh], Or.inr rfl⟩

lemma Kill_split (w : VfkitWorld) :
    ∃ tail, (Kill w).2.2 = (killVfkit w).2.2 ++ tail ∧
      (tail = [] ∨ tail = [Event.helperKill]) := by
  obtain ⟨p, hsv⟩ : ∃ p, killVfkit w = p := ⟨_, rfl⟩
  obtain ⟨res, w2, tr⟩ := p
  unfold Kill
  rw [hsv]
  cases res with
  | error e => exact ⟨[], by simp, Or.inl rfl⟩
  | ok u =>
    unfold killVmnetHelper
    cases hh : w2.helper with
    | none => exact ⟨[], by simp [hh], Or.inl rfl⟩
    | some h => exact ⟨[Event.helperKill], by simp [hh], Or.inr rfl⟩

lemma stopVfkit_no_helper_events (w : VfkitWorld) :
    ∀ ev ∈ (stopVfkit w).2.2, ev.isHelper = false := by
  intro ev hev
  rcases stopVfkit_shape w with ⟨hs, htr⟩ | ⟨he, hc⟩
  · rw [htr] at hev
    fin_cases hev
    rfl
  · rcases hc with htr | ⟨pid, htr⟩ | ⟨pid, htr⟩ <;> rw [htr] at hev <;>
      fin_cases hev <;> rfl

lemma killVfkit_no_helper_events (w : VfkitWorld) :
    ∀ ev ∈ (killVfkit w).2.2, ev.isHelper = false := by
  intro ev hev
  rcases killVfkit_shape w with ⟨hs, htr⟩ | ⟨he, hc⟩
  · rw [htr] at hev
    fin_cases hev
    rfl
  · rcases hc with htr | ⟨pid, htr⟩ | ⟨pid, htr⟩ <;> rw [htr] at hev <;>
      fin_cases hev <;> rfl

lemma stopVfkit_readPid (w : VfkitWorld) :
    Event.readPid ∈ (stopVfkit w).2.2 ↔ ∃ e, w.setState "Stop" = Except.error e := by
  constructor
  · intro hmem
    rcases stopVfkit_shape w with ⟨hs, htr⟩ | ⟨he, hc⟩
    · rw [htr] at hmem
      simp at hmem
    · exact he
  · rintro ⟨e, hs⟩
    rcases stopVfkit_shape w with ⟨hok, htr⟩ | ⟨he, hc⟩
    · rw [hs] at hok
      exact Except.noConfusion hok
    · rcases hc with htr | ⟨pid, htr⟩ | ⟨pid, htr⟩ <;> rw [htr] <;> simp

lemma killVfkit_readPid (w : VfkitWorld) :
    Event.readPid ∈ (killVfkit w).2.2 ↔ ∃ e, w.setState "HardStop" = Except.error e := by
  constructor
  · intro hmem
    rcases killVfkit_shape w with ⟨hs, htr⟩ | ⟨he, hc⟩
    · rw [htr] at hmem
      simp at hmem
    · exact he
  · rintro ⟨e, hs⟩
    rcases killVfkit_shape w with ⟨hok, htr⟩ | ⟨he, hc⟩
    · rw [hs] at hok
      exact Except.noConfusion hok
    · rcases hc with htr | ⟨pid, htr⟩ | ⟨pid, htr⟩ <;> rw [htr] <;> simp

lemma Stop_head (w : VfkitWorld) :
    ((Stop w).2.2).head? = some (Event.setVFKitState "Stop") := by
  obtain ⟨tail, htr, _⟩ := Stop_split w
  rw [htr]
  rcases stopVfkit_shape w with ⟨_, h2⟩ | ⟨_, h2 | ⟨pid, h2⟩ | ⟨pid, h2⟩⟩ <;>
    rw [h2] <;> rfl

lemma Kill_head (w : VfkitWorld) :
    ((Kill w).2.2).head? = some (Event.setVFKitState "HardStop") := by
  obtain ⟨tail, htr, _⟩ := Kill_split w
  rw [htr]
  rcases killVfkit_shape w with ⟨_, h2⟩ | ⟨_, h2 | ⟨pid, h2⟩ | ⟨pid, h2⟩⟩ <;>
    rw [h2] <;> rfl

/-- Claim C5: `Stop` attempts the control-channel request
`SetVFKitState("Stop")` first, and reads the pid file / sends Terminate
only when that request fails; `Kill` does the same with
`SetVFKitState("HardStop")` and the forceful signal; and in both
traces every hypervisor action precedes every vmnet-helper action. -/
theorem c5_shutdown_order (w : VfkitWorld) :
    ((Stop w).2.2.head? = some (Event.setVFKitState "Stop")) ∧
    ((Kill w).2.2.head? = some (Event.setVFKitState "HardStop")) ∧
    (Event.readPid ∈ (Stop w).2.2 ↔ ∃ e, w.setState "Stop" = Except.error e) ∧
    (Event.readPid ∈ (Kill w).2.2 ↔ ∃ e, w.setState "HardStop" = Except.error e) ∧
    (∀ pid, Event.terminate pid ∈ (Stop w).2.2 →
      ∃ e, w.setState "Stop" = Except.error e) ∧
    (∀ pid, Event.killSig pid ∈ (Kill w).2.2 →
      ∃ e, w.setState "HardStop" = Except.error e) ∧
    (∃ t1 t2, (Stop w).2.2 = t1 ++ t2 ∧
      (∀ ev ∈ t1, ev.isHelper = false) ∧ (∀ ev ∈ t2, ev.isHelper = true)) ∧
    (∃ t1 t2, (Kill w).2.2 = t1 ++ t2 ∧
      (∀ ev ∈ t1, ev.isHelper = false) ∧ (∀ ev ∈ t2, ev.isHelper = true)) := by
  obtain ⟨stail, hstr, hstail⟩ := Stop_split w
  obtain ⟨ktail, hktr, hktail⟩ := Kill_split w
  refine ⟨Stop_head w, Kill_head w, ?_, ?_, ?_, ?_, ?_, ?_⟩
  · rw [hstr, List.mem_append]
    constructor
    · rintro (h | h)
      · exact (stopVfkit_readPid w).mp h
      · rcases hstail with rfl | rfl
        · cases h
        · simp at h
    · intro he
      exact Or.inl ((stopVfkit_readPid w).mpr he)
  · rw [hktr, List.mem_append]
    constructor
    · rintro (h | h)
      · exact (killVfkit_readPid w).mp h
      · rcases hktail with rfl | rfl
        · cases h
        · simp at h
    · intro he
      exact Or.inl ((killVfkit_readPid w).mpr he)
  · intro pid hmem
    rw [hstr, List.mem_append] at hmem
    rcases hmem with h | h
    · rcases stopVfkit_shape w with ⟨hs, htr⟩ | ⟨he, hc⟩
      · rw [htr] at h
        simp at h
      · exact he
    · rcases hstail with rfl | rfl
      · cases h
      · simp at h
  · intro pid hmem
    rw [hktr, List.mem_append] at hmem
    rcases hmem with h | h
    · rcases killVfkit_shape w with ⟨hs, htr⟩ | ⟨he, hc⟩
      · rw [htr] at h
        simp at h
      · exact he
    · rcases hktail with rfl | rfl
      · cases h
      · simp at h
  · refine ⟨(stopVfkit w).2.2, stail, hstr, stopVfkit_no_helper_events w, ?_⟩
    rcases hstail with rfl | rfl
    · intro ev hev
      cases hev
    · intro ev hev
      fin_cases hev
      rfl
  · refine ⟨(killVfkit w).2.2, ktail, hktr, killVfkit_no_helper_events w, ?_⟩
    rcases hktail with rfl | rfl
    · intro ev hev
      cases hev
    · intro ev hev
      fin_cases hev
      rfl

/-- Concrete driver state for the C5 witness: the control channel fails
with EOF, the pid file records pid 7 with a live vfkit process. -/
def w5wit : VfkitWorld :=
  { readPidfile := Except.ok 7,
    procExists := fun _ => Except.ok true,
    setState := fun _ => Except.error (GoError.other "EOF"),
    terminate := fun _ => Except.ok (),
    killSignal := fun _ => Except.ok (),
    helper := none }

/-- Witness for C5: with a failing control channel the fallback pid-file
read appears in the Stop trace, and the Kill trace starts with the
HardStop request. -/
theorem c5_shutdown_order_w :
    Event.readPid ∈ (Stop w5wit).2.2 ∧
    (Kill w5wit).2.2.head? = some (Event.setVFKitState "HardStop") :=
  ⟨((c5_shutdown_order w5wit).2.2.1).mpr ⟨GoError.other "EOF", rfl⟩,
   (c5_shutdown_order w5wit).2.1⟩

/-! ## C3 -/

lemma runAttempts_succ_at (lookup : Nat → Except GoError String) (ip : String) :
    ∀ (t i n : Nat), (∀ j, j < t → ∃ e, lookup (i + j) = Except.error e) →
      lookup (i + t) = Except.ok ip → t < n →
      runAttempts lookup i n = (Except.ok ip, t + 1, 2 * t) := by
  intro t
  induction t with
  | zero =>
    intro i n hfail hok hlt
    obtain ⟨m, rfl⟩ : ∃ m, n = m + 1 := ⟨n - 1, by omega⟩
    rw [Nat.add_zero] at hok
    unfold runAttempts
    rw [hok]
  | succ t ih =>
    intro i n hfail hok hlt
    obtain ⟨m, rfl⟩ : ∃ m, n = m + 1 := ⟨n - 1, by omega⟩
    obtain ⟨e, he⟩ := hfail 0 (Nat.succ_pos t)
    rw [Nat.add_zero] at he
    obtain ⟨m2, rfl⟩ : ∃ m2, m = m2 + 1 := ⟨m - 1, by omega⟩
    have hrec : runAttempts lookup (i + 1) (m2 + 1) = (Except.ok ip, t + 1, 2 * t) := by
      apply ih
      · intro j hj
        have hx := hfail (j + 1) (by omega)
        rwa [show i + (j + 1) = i + 1 + j from by omega] at hx
      · rw [show i + 1 + t = i + (t + 1) from by omega]
        exact hok
      · omega
    unfold runAttempts
    rw [he]
    simp only [hrec]
    simp [Nat.mul_succ]

lemma runAttempts_le (lookup : Nat → Except GoError String) :
    ∀ (n i : Nat), (runAttempts lookup i n).2.1 ≤ n := by
  intro n
  induction n with
  | zero =>
    intro i
    simp [runAttempts]
  | succ m ih =>
    intro i
    unfold runAttempts
    cases hl : lookup i with
    | ok ip => simp
    | error e =>
      cases m with
      | zero => simp
      | succ m2 =>
        have hx := ih (i + 1)
        show (runAttempts lookup (i + 1) (m2 + 1)).2.1 + 1 ≤ m2 + 1 + 1
        omega

lemma setupIP_attempts (nested : Bool) (lookup : Nat → Except GoError String)
    (unblock : Except GoError Unit) :
    (setupIP nested lookup unblock).2.1 = (runAttempts lookup 0 (ipBudget nested)).2.1 := by
  obtain ⟨p, hp⟩ : ∃ p, runAttempts lookup 0 (ipBudget nested) = p := ⟨_, rfl⟩
  obtain ⟨res, a, s⟩ := p
  unfold setupIP
  rw [hp]
  cases res with
  | ok ip => rfl
  | error e =>
    cases hb : isBootpdError e
    · simp [hb]
    · cases hu : unblock <;> simp [hb, hu]

/-- Claim C3: `setupIP` makes at most `60 × multiplier` lookup attempts
(multiplier 3 under the nested-VM check, else 1); when the lookup first
succeeds on attempt `k` within the budget it stops after exactly `k`
attempts, having slept 2 seconds after each of the `k - 1` failed
attempts, and stores the returned IP address. -/
theorem c3_retry_budget (nested : Bool) (lookup : Nat → Except GoError String)
    (unblock : Except GoError Unit) (k : Nat) (ip : String)
    (hk1 : 1 ≤ k) (hk2 : k ≤ ipBudget nested)
    (hfail : ∀ j, j + 1 < k → ∃ e, lookup j = Except.error e)
    (hok : lookup (k - 1) = Except.ok ip) :
    setupIP nested lookup unblock = (IPOutcome.ok ip, k, 2 * (k - 1), 0) ∧
    ∀ lk : Nat → Except GoError String, ∀ ub : Except GoError Unit,
      (setupIP nested lk ub).2.1 ≤ ipBudget nested := by
  constructor
  · have hrun : runAttempts lookup 0 (ipBudget nested) =
        (Except.ok ip, (k - 1) + 1, 2 * (k - 1)) := by
      apply runAttempts_succ_at
      · intro j hj
        have hx := hfail j (by omega)
        rwa [Nat.zero_add]
      · rw [Nat.zero_add]
        exact hok
      · omega
    unfold setupIP
    rw [hrun]
    have hk : k - 1 + 1 = k := by omega
    simp [hk]
  · intro lk ub
    rw [setupIP_attempts]
    exact runAttempts_le lk (ipBudget nested) 0

/-- Lookup stub for the C3 witness: fails on attempts 0 and 1, succeeds
on attempt 2 (the third attempt). -/
def lookup3 : Nat → Except GoError String :=
  fun j => if j = 2 then Except.ok "192.168.105.6"
           else Except.error (GoError.other "no lease yet")

/-- Witness for C3: with the stub succeeding on the third attempt and
the nested-VM check false, `setupIP` stops after exactly 3 attempts,
slept 2 seconds after each of the 2 failures, and stores the IP. -/
theorem c3_retry_budget_w :
    setupIP false lookup3 (Except.ok ()) = (IPOutcome.ok "192.168.105.6", 3, 4, 0) ∧
    (setupIP false lookup3 (Except.ok ())).2.1 ≤ ipBudget false := by
  have h := c3_retry_budget false lookup3 (Except.ok ()) 3 "192.168.105.6"
    (by omega) (by decide)
    (by
      intro j hj
      refine ⟨GoError.other "no lease yet", ?_⟩
      rcases j with _ | _ | j2
      · rfl
      · rfl
      · exact absurd hj (by omega))
    rfl
  exact ⟨h.1, h.2 lookup3 (Except.ok ())⟩

/-! ## C4 -/

lemma runAttempts_all_fail (lookup : Nat → Except GoError String) (es : Nat → GoError) :
    ∀ (n i : Nat), 0 < n → (∀ j, j < n → lookup (i + j) = Except.error (es (i + j))) →
      runAttempts lookup i n = (Except.error (gipWrap (es (i + n - 1))), n, 2 * n) := by
  intro n
  induction n with
  | zero =>
    intro i hpos hfail
    exact absurd hpos (by omega)
  | succ m ih =>
    intro i hpos hfail
    have he : lookup i = Except.error (es i) := by
      have hx := hfail 0 (Nat.succ_pos m)
      rwa [Nat.add_zero] at hx
    cases m with
    | zero =>
      unfold runAttempts
      rw [he]
      simp
    | succ m2 =>
      have hrec := ih (i + 1) (Nat.succ_pos m2) (by
        intro j hj
        have hx := hfail (j + 1) (by omega)
        rwa [show i + (j + 1) = i + 1 + j from by omega] at hx)
      unfold runAttempts
      rw [he]
      simp only [hrec]
      rw [show i + 1 + (m2 + 1) - 1 = i + (m2 + 1 + 1) - 1 from by omega]
      simp [Nat.mul_succ]

/-- Claim C4 (amended): when the retry budget is exhausted and the final
wrapped error carries the bootpd signature, the firewall-unblock action
is invoked exactly once; `setupIP` then returns the retryable
"ip not found" error when the unblock succeeds but exits the process
fatally when the unblock itself fails.  Without the signature the
underlying error is returned wrapped as a hard failure and the unblock
is never invoked. -/
theorem c4_exhaustion_classification (nested : Bool)
    (lookup : Nat → Except GoError String) (unblock : Except GoError Unit)
    (es : Nat → GoError)
    (hfail : ∀ j, j < ipBudget nested → lookup j = Except.error (es j)) :
    (isBootpdError (gipWrap (es (ipBudget nested - 1))) = true →
      unblock = Except.ok () →
      setupIP nested lookup unblock =
        (IPOutcome.retryable
          ("ip not found: " ++ (gipWrap (es (ipBudget nested - 1))).message),
         ipBudget nested, 2 * ipBudget nested, 1)) ∧
    (isBootpdError (gipWrap (es (ipBudget nested - 1))) = true →
      ∀ e2, unblock = Except.error e2 →
      setupIP nested lookup unblock =
        (IPOutcome.exitFatal, ipBudget nested, 2 * ipBudget nested, 1)) ∧
    (isBootpdError (gipWrap (es (ipBudget nested - 1))) = false →
      setupIP nested lookup unblock =
        (IPOutcome.hardErr (wrapErr "IP address never found in dhcp leases file"
          (gipWrap (es (ipBudget nested - 1)))),
         ipBudget nested, 2 * ipBudget nested, 0)) := by
  have hpos : 0 < ipBudget nested := by
    cases nested <;> decide
  have hrun : runAttempts lookup 0 (ipBudget nested) =
      (Except.error (gipWrap (es (ipBudget nested - 1))),
       ipBudget nested, 2 * ipBudget nested) := by
    have hx := runAttempts_all_fail lookup es (ipBudget nested) 0 hpos (by
      intro j hj
      rw [Nat.zero_add]
      exact hfail j hj)
    rwa [Nat.zero_add] at hx
  refine ⟨?_, ?_, ?_⟩
  · intro hb hu
    unfold setupIP
    rw [hrun]
    simp [hb, hu]
  · intro hb e2 hu
    unfold setupIP
    rw [hrun]
    simp [hb, hu]
  · intro hb
    unfold setupIP
    rw [hrun]
    simp [hb]

/-- Lookup stub that always fails with the bootpd-signature message. -/
def bootpdLookup : Nat → Except GoError String :=
  fun _ => Except.error
    (GoError.other "error getting IP: could not find an IP address for aa:bb:cc:dd:ee:ff")

/-- A firewall-unblock action that itself fails. -/
def failUnblock : Except GoError Unit :=
  Except.error (GoError.other "sudo execution failed")

/-- The per-attempt error family of `bootpdLookup`. -/
def esBootpd : Nat → GoError :=
  fun _ => GoError.other "error getting IP: could not find an IP address for aa:bb:cc:dd:ee:ff"

/-- Claim C4, counterexample: with every lookup failing with the bootpd
signature and the firewall unblock itself failing, the remediation is
invoked exactly once, yet `setupIP` does not return the retryable
"ip not found" error — it exits the process fatally instead. -/
theorem c4_counterexample :
    isBootpdError (gipWrap (esBootpd 0)) = true ∧
    (setupIP false bootpdLookup failUnblock).2.2.2 = 1 ∧
    (setupIP false bootpdLookup failUnblock).1 = IPOutcome.exitFatal ∧
    (∀ msg, (setupIP false bootpdLookup failUnblock).1 ≠ IPOutcome.retryable msg) := by
  refine ⟨rfl, rfl, rfl, ?_⟩
  intro msg h
  rw [show (setupIP false bootpdLookup failUnblock).1 = IPOutcome.exitFatal from rfl] at h
  exact IPOutcome.noConfusion h

/-- Witness for C4 (amended): with every lookup failing with the bootpd
signature and a succeeding unblock, `setupIP` invokes the unblock once
and returns the retryable error after the full budget of 60 attempts. -/
theorem c4_exhaustion_classification_w :
    setupIP false bootpdLookup (Except.ok ()) =
      (IPOutcome.retryable
        ("ip not found: " ++ (gipWrap (esBootpd (ipBudget false - 1))).message),
       ipBudget false, 2 * ipBudget false, 1) :=
  (c4_exhaustion_classification false bootpdLookup (Except.ok ()) esBootpd
    (fun _ _ => rfl)).1 (by decide) rfl

/-! ## C6 -/

/-- Claim C6 (amended): for any readable public key and any size whose
byte quota `size * 1048576` is at least the encoded archive length,
`generateDiskImage` succeeds, and the resulting file holds exactly the
four archive entries in order (sentinel, `.ssh` dir with mode 0700, the
two authorized-keys files with the key bytes) and is exactly
`size * 1048576` bytes long. -/
theorem c6_disk_image (fs : DiskFS) (pubKey : List Nat) (size : Nat)
    (hread : fs.readPubKey = Except.ok pubKey)
    (hw : fs.writeOk = true) (ht : fs.truncateOk = true)
    (hfit : tarByteLen (diskEntries pubKey) ≤ size * 1048576) :
    (generateDiskImage fs size).1 = Except.ok () ∧
    (generateDiskImage fs size).2.disk =
      some { entries := diskEntries pubKey, byteLen := size * 1048576,
             intact := true } := by
  unfold generateDiskImage
  rw [hread, hw, ht]
  simp [truncateFile, hfit]

/-- A concrete public key (as bytes) for the C6 scenarios. -/
def pk6 : List Nat := strBytes "ssh-ed25519 AAAAC3NzaC1lZDI1 docker@minikube"

/-- A file system in which the key is readable and all writes succeed. -/
def fs6 : DiskFS :=
  { readPubKey := Except.ok pk6, writeOk := true, truncateOk := true, disk := none }

/-- Witness for C6 (amended) at 20000 MB: the file holds the four
entries and is exactly 20000 × 1048576 bytes long. -/
theorem c6_disk_image_w :
    (generateDiskImage fs6 20000).1 = Except.ok () ∧
    (generateDiskImage fs6 20000).2.disk =
      some { entries := diskEntries pk6, byteLen := 20000 * 1048576,
             intact := true } :=
  c6_disk_image fs6 pk6 20000 rfl rfl rfl (by decide)

/-- Claim C6, counterexample: at size 0 the file is truncated to exactly
0 bytes, but a 0-byte file cannot contain the archive (whose encoded
length is positive), so the built image is not a tar archive holding
the four entries. -/
theorem c6_counterexample :
    (generateDiskImage fs6 0).1 = Except.ok () ∧
    (generateDiskImage fs6 0).2.disk =
      some { entries := diskEntries pk6, byteLen := 0, intact := false } ∧
    0 < tarByteLen (diskEntries pk6) := by
  exact ⟨rfl, by decide, by decide⟩

/-! ## C7 -/

/-- File system in which the public key file is missing. -/
def fs7read : DiskFS :=
  { readPubKey := Except.error (GoError.other "open id_rsa.pub: no such file"),
    writeOk := true, truncateOk := true, disk := none }

/-- File system in which writing `disk.img` fails (e.g. disk full). -/
def fs7write : DiskFS :=
  { readPubKey := Except.ok (strBytes "ssh-rsa AAAA"),
    writeOk := false, truncateOk := true, disk := none }

/-- File system in which truncating `disk.img` fails. -/
def fs7trunc : DiskFS :=
  { readPubKey := Except.ok (strBytes "ssh-rsa AAAA"),
    writeOk := true, truncateOk := false, disk := none }

/-- Claim C7, code behaviour at the failing inputs: an unreadable public
key is indeed reported as an error, but a failing `os.WriteFile` (no
file is produced) and a failing `os.Truncate` are both swallowed and
reported as success, contradicting the claim. -/
theorem c7_error_swallowed :
    (generateDiskImage fs7read 20000).1 =
      Except.error (GoError.other "open id_rsa.pub: no such file") ∧
    (generateDiskImage fs7write 20000).1 = Except.ok () ∧
    (generateDiskImage fs7write 20000).2.disk = none ∧
    (generateDiskImage fs7trunc 20000).1 = Except.ok () := by
  exact ⟨rfl, rfl, rfl, rfl⟩

/-! ## C8 -/

/-- A probe for an endpoint that never becomes reachable. -/
def neverUp : Nat → ProbeResult := fun _ => ProbeResult.dialErr

lemma waitForTCP_never (probe : Nat → ProbeResult)
    (h : ∀ j, probe j ≠ ProbeResult.success) :
    ∀ (fuel i : Nat), waitForTCP probe fuel i = none := by
  intro fuel
  induction fuel with
  | zero =>
    intro i
    rfl
  | succ f ih =>
    intro i
    unfold waitForTCP
    cases hp : probe i with
    | success => exact absurd hp (h i)
    | dialErr => exact ih (i + 1)
    | readErr => exact ih (i + 1)

lemma waitForTCP_first_success (probe : Nat → ProbeResult) :
    ∀ (t i fuel : Nat), (∀ j, j < t → probe (i + j) ≠ ProbeResult.success) →
      probe (i + t) = ProbeResult.success → t < fuel →
      waitForTCP probe fuel i = some (i + t + 1) := by
  intro t
  induction t with
  | zero =>
    intro i fuel hfail hok hlt
    obtain ⟨f, rfl⟩ : ∃ f, fuel = f + 1 := ⟨fuel - 1, by omega⟩
    rw [Nat.add_zero] at hok
    unfold waitForTCP
    rw [hok]
  | succ t ih =>
    intro i fuel hfail hok hlt
    obtain ⟨f, rfl⟩ : ∃ f, fuel = f + 1 := ⟨fuel - 1, by omega⟩
    have hne : probe i ≠ ProbeResult.success := by
      have hx := hfail 0 (Nat.succ_pos t)
      rwa [Nat.add_zero] at hx
    have hrec : waitForTCP probe f (i + 1) = some (i + 1 + t + 1) := by
      apply ih
      · intro j hj
        have hx := hfail (j + 1) (by omega)
        rwa [show i + (j + 1) = i + 1 + j from by omega] at hx
      · rw [show i + 1 + t = i + (t + 1) from by omega]
        exact hok
      · omega
    rw [show i + (t + 1) + 1 = i + 1 + t + 1 from by omega]
    unfold waitForTCP
    cases hp : probe i with
    | success => exact absurd hp hne
    | dialErr => exact hrec
    | readErr => exact hrec

/-- Claim C8, counterexample: against an endpoint that never becomes
reachable, `WaitForTCPWithDelay` never terminates — there is no number
of probe attempts after which the loop has returned, so the wait is not
bounded by any finite iteration count. -/
theorem c8_counterexample :
    ¬ ∃ fuel, (waitForTCP neverUp fuel 0).isSome = true := by
  rintro ⟨fuel, h⟩
  rw [waitForTCP_never neverUp (fun j hj => ProbeResult.noConfusion hj) fuel 0] at h
  simp at h

/-- Claim C8 (amended): the `WaitForTCPWithDelay` loop has no iteration
bound — it terminates exactly on the first successful probe (after
`k + 1` attempts when attempt `k` is the first success), and against an
endpoint that never becomes reachable it loops forever. -/
theorem c8_unbounded_wait (probe : Nat → ProbeResult) :
    (∀ k, (∀ j, j < k → probe j ≠ ProbeResult.success) →
      probe k = ProbeResult.success →
      ∀ fuel, k < fuel → waitForTCP probe fuel 0 = some (k + 1)) ∧
    ((∀ j, probe j ≠ ProbeResult.success) →
      ∀ fuel, waitForTCP probe fuel 0 = none) := by
  constructor
  · intro k hfail hok fuel hlt
    have hx := waitForTCP_first_success probe k 0 fuel (by
      intro j hj
      rw [Nat.zero_add]
      exact hfail j hj) (by rw [Nat.zero_add]; exact hok) hlt
    rwa [Nat.zero_add] at hx
  · intro h fuel
    exact waitForTCP_never probe h fuel 0

/-- A probe whose first success is on attempt 2 (the third attempt). -/
def probeAt2 : Nat → ProbeResult :=
  fun j => if j = 2 then ProbeResult.success else ProbeResult.dialErr

/-- Witness for C8 (amended): with the first successful probe on attempt
2, the loop terminates after exactly 3 attempts. -/
theorem c8_unbounded_wait_w : waitForTCP probeAt2 10 0 = some 3 :=
  (c8_unbounded_wait probeAt2).1 2 (by decide) rfl 10 (by omega)

end Vfkit
